import Mathlib

/-!
# Verification of `wsgi_intercept` (concordusapps/wsgi-intercept)

A shallow embedding in Lean 4 of the core of `wsgi_intercept/__init__.py`:

* the registry (`add_wsgi_intercept`, `remove_wsgi_intercept`, the module
  dictionary `_wsgi_intercept`),
* the URL-processing step of `make_environ`,
* the response-drive loop of `wsgi_fake_socket.makefile` (including the
  `start_response` callback and the direct-write function `write_fn`),
* `wsgi_fake_socket.sendall`, and
* `WSGI_HTTPConnection.get_app` / `WSGI_HTTPConnection.connect`.

Byte strings are modelled as `List Char` (each `Char` standing for one byte;
all inputs of interest are ASCII).  Python iterators are modelled by the
finite trace of their `next` calls: a list of successful pulls, each
carrying the `write_fn` calls made while that pull's generator code runs,
followed by one exhausting call (raising `StopIteration`) that may also make
`write_fn` calls before raising.
-/

/-- Byte strings (one `Char` per byte). -/
abbrev Bytes := List Char

/-- Bytes of a string literal. -/
def chars (s : String) : Bytes := s.data

/-! ## The response-drive loop of `wsgi_fake_socket.makefile`

Source, `wsgi_intercept/__init__.py` lines 379–402:

```
try:
    generator_data = None
    try:
        generator_data = next(self.result)
    finally:
        for data in self.write_results:
            self.output.write(data)

    if generator_data:
        try:
            self.output.write(generator_data)
        except TypeError as exc:
            raise TypeError('bytes required in response: %s' % exc)

        while 1:
            data = next(self.result)
            self.output.write(data)

except StopIteration:
    pass

if hasattr(app_result, 'close'):
    app_result.close()
```
-/

/-- A chunk produced by one `next(self.result)` call: either a byte string
(`self.output.write` succeeds; the chunk is falsy exactly when empty), or a
truthy non-byte object such as a non-empty `str`, for which
`self.output.write` raises `TypeError`. -/
inductive Item where
  | bytes (s : Bytes)
  | notBytes
deriving DecidableEq, Repr

/-- One successful `next(self.result)` call: the `write_fn` calls made while
the generator code for this pull ran, and the item it returned. -/
structure Pull where
  writes : List Bytes
  item : Item
deriving DecidableEq, Repr

/-- The observable state of the fake socket when `makefile` finishes (or
when an uncaught exception escapes it): `output` is `self.output`,
`writeResults` is `self.write_results`, and `closed` records whether
`app_result.close()` was invoked. -/
structure DrainState where
  output : Bytes
  writeResults : List Bytes
  closed : Bool
deriving DecidableEq, Repr

/-- Outcome of the drive loop: normal completion (`StopIteration` caught or
the falsy-first-chunk path), or a `TypeError` escaping `makefile`.
`descriptive` is `true` for the wrapped `bytes required in response` error
raised for the first chunk, `false` for the bare `TypeError` from the
`while` loop. -/
inductive DrainResult where
  | ok (st : DrainState)
  | typeError (descriptive : Bool) (st : DrainState)
deriving DecidableEq, Repr

/-- The `while 1` loop of `makefile` (lines 394–396) together with the
surrounding `except StopIteration` / `close` handling: pulls the remaining
items, appending each pull's `write_fn` data to `self.write_results`
(never flushed again) and each chunk to `self.output`; on exhaustion the
final `next` call appends `stopWrites` to `self.write_results` and raises
`StopIteration`, which is caught, after which `close` is invoked when the
result object exposes it.  A non-byte chunk makes `self.output.write` raise
a bare `TypeError` that escapes before `close` is reached. -/
def drainLoop (output : Bytes) (wr : List Bytes) (rest : List Pull)
    (stopWrites : List Bytes) (hasClose : Bool) : DrainResult :=
  match rest with
  | [] => .ok ⟨output, wr ++ stopWrites, hasClose⟩
  | q :: qs =>
    match q.item with
    | .bytes s => drainLoop (output ++ s) (wr ++ q.writes) qs stopWrites hasClose
    | .notBytes => .typeError false ⟨output, wr ++ q.writes, false⟩

/-- The full drive loop of `makefile` (lines 379–402), starting from
`self.output = hdr` (everything `start_response` wrote) and
`self.write_results = initWrites` (the `write_fn` calls made during
`self.app(environ, start_response)` itself, before the first pull):
pulls exactly one item; the `finally` block then flushes every entry of
`self.write_results` into `self.output` (also when that first pull raised
`StopIteration`, in which case `stopWrites` was appended first); then, only
if the first item is truthy, writes it (a non-byte first item raising the
descriptive `TypeError`, skipping `close`) and runs the `while` loop over
the remaining pulls. -/
def makefileDrain (hdr : Bytes) (initWrites : List Bytes) (pulls : List Pull)
    (stopWrites : List Bytes) (hasClose : Bool) : DrainResult :=
  match pulls with
  | [] =>
    let wr := initWrites ++ stopWrites
    .ok ⟨hdr ++ wr.flatten, wr, hasClose⟩
  | p :: rest =>
    let wr := initWrites ++ p.writes
    let out := hdr ++ wr.flatten
    match p.item with
    | .bytes s =>
      if s = [] then .ok ⟨out, wr, hasClose⟩
      else drainLoop (out ++ s) wr rest stopWrites hasClose
    | .notBytes => .typeError true ⟨out, wr, false⟩

/-- `self.output` at the end of `makefile` (or when the escaping exception
was raised). -/
def drainOutput : DrainResult → Bytes
  | .ok st => st.output
  | .typeError _ st => st.output

/-- `self.write_results` at the end of `makefile`. -/
def drainWrites : DrainResult → List Bytes
  | .ok st => st.writeResults
  | .typeError _ st => st.writeResults

/-- Whether `app_result.close()` was invoked. -/
def drainClosed : DrainResult → Bool
  | .ok st => st.closed
  | .typeError _ st => st.closed

/-- Whether `makefile` completed without an escaping exception. -/
def drainIsOk : DrainResult → Bool
  | .ok _ => true
  | .typeError _ _ => false

/-- A run of successful pulls all returning byte chunks: pull `i` makes the
`write_fn` calls `ps[i].1` and returns the byte chunk `ps[i].2`. -/
def bytesPulls (ps : List (List Bytes × Bytes)) : List Pull :=
  ps.map fun p => ⟨p.1, .bytes p.2⟩

/-! ## `start_response` (lines 339–357)

```
def start_response(status, headers, exc_info=None):
    self.output.write(b"HTTP/1.0 " + status.encode('utf-8') + b"\n")
    for k, v in headers:
        ...
        self.output.write(k + b':' + v + b"\n")
    self.output.write(b'\n')
    def write_fn(s):
        self.write_results.append(s)
    return write_fn
```

The `.encode('utf-8')` calls are the identity in our byte model (each
`Char` already stands for one encoded byte). -/

/-- Everything `start_response(status, headers)` writes into `self.output`
at the moment it is invoked: the status line, one `k:v` line per header (no
space after the colon), and a blank line. -/
def startResponseOutput (status : Bytes) (headers : List (Bytes × Bytes)) : Bytes :=
  (chars "HTTP/1.0 " ++ status ++ chars "\n")
    ++ (headers.map fun kv => kv.1 ++ chars ":" ++ kv.2 ++ chars "\n").flatten
    ++ chars "\n"

/-- `makefile` for a handler that calls `start_response(status, headers)`
while `self.app(environ, start_response)` runs (before the first pull), so
that the drive loop starts from `self.output = startResponseOutput status
headers`. -/
def makefileRun (status : Bytes) (headers : List (Bytes × Bytes))
    (initWrites : List Bytes) (pulls : List Pull) (stopWrites : List Bytes)
    (hasClose : Bool) : DrainResult :=
  makefileDrain (startResponseOutput status headers) initWrites pulls stopWrites hasClose

/-! ## The registry (lines 137–159)

```
_wsgi_intercept = {}

def add_wsgi_intercept(host, port, app_create_fn, script_name=''):
    _wsgi_intercept[(host, port)] = (app_create_fn, script_name)

def remove_wsgi_intercept(*args):
    global _wsgi_intercept
    if len(args) == 0:
        _wsgi_intercept = {}
    else:
        key = (args[0], args[1])
        if key in _wsgi_intercept:
            del _wsgi_intercept[key]
```

`add_wsgi_intercept` stores the port exactly as supplied, so a port may be
an `int` or a `str`; in Python an `int` and a `str` are never equal, so the
two kinds of key never collide.  The dictionary is modelled as an
insertion-ordered association list without duplicate keys: assignment
replaces in place when the key is present and appends otherwise, exactly as
a Python `dict`. -/

/-- A Python port value: an `int` or a `str` (`"80"`).  Distinct
constructors never compare equal, as in Python. -/
inductive PortVal where
  | int (n : Int)
  | str (s : String)
deriving DecidableEq, Repr

/-- Python `int(s)` on a `str`: the value of a non-empty string of ASCII
decimal digits, `none` (modelling the `ValueError`) otherwise.  (Python
also accepts surrounding whitespace and a sign; ports supplied as strings
are plain digit strings, so those forms are not modelled.) -/
def pyStrToInt (s : String) : Option Int :=
  if s.data ≠ [] ∧ s.data.all Char.isDigit then
    some (s.data.foldl (fun acc c => acc * 10 + ((c.toNat : Int) - 48)) 0)
  else none

/-- Python `int(port)`: the identity on an `int`, numeric parsing on a
`str` (`none` models the `ValueError` raised on a non-numeric string). -/
def pyInt : PortVal → Option Int
  | .int n => some n
  | .str s => pyStrToInt s

/-- A registry entry: `(app_create_fn, script_name)`.  The factory returns
`none` when the created object is falsy (for example `None`), `some a` for
a truthy application object. -/
def Entry (α : Type) := (Unit → Option α) × String

/-- The module dictionary `_wsgi_intercept`, keyed by `(host, port)`. -/
def Registry (α : Type) := List ((String × PortVal) × Entry α)

/-- Python `key in d` / `d[key]` lookup. -/
def dictGet {α : Type} (r : Registry α) (k : String × PortVal) : Option (Entry α) :=
  match r with
  | [] => none
  | (k', v) :: rest => if k' = k then some v else dictGet rest k

/-- Python `d[key] = v`: replace in place when present, append otherwise. -/
def dictSet {α : Type} (r : Registry α) (k : String × PortVal) (v : Entry α) :
    Registry α :=
  match r with
  | [] => [(k, v)]
  | (k', v') :: rest => if k' = k then (k, v) :: rest else (k', v') :: dictSet rest k v

/-- Python `del d[key]`. -/
def dictDel {α : Type} (r : Registry α) (k : String × PortVal) : Registry α :=
  match r with
  | [] => []
  | (k', v') :: rest => if k' = k then dictDel rest k else (k', v') :: dictDel rest k

/-- `add_wsgi_intercept(host, port, app_create_fn, script_name)` (lines
140–145). -/
def add_wsgi_intercept {α : Type} (r : Registry α) (host : String) (port : PortVal)
    (app_create_fn : Unit → Option α) (script_name : String) : Registry α :=
  dictSet r (host, port) (app_create_fn, script_name)

/-- The `*args` of `remove_wsgi_intercept`: either no arguments, or a
`(host, port)` pair. -/
inductive RemoveArgs where
  | noArgs
  | key (host : String) (port : PortVal)

/-- `remove_wsgi_intercept(*args)` (lines 148–159): with no arguments the
dictionary is replaced by a fresh empty one; with a key, the entry is
deleted only when present. -/
def remove_wsgi_intercept {α : Type} (r : Registry α) : RemoveArgs → Registry α
  | .noArgs => []
  | .key host port =>
    if (dictGet r (host, port)).isSome then dictDel r (host, port) else r

/-! ## `WSGI_HTTPConnection.get_app` and `.connect` (lines 435–474)

```
def get_app(self, host, port):
    key = (host, int(port))
    app, script_name = None, None
    if key in _wsgi_intercept:
        (app_fn, script_name) = _wsgi_intercept[key]
        app = app_fn()
    return app, script_name

def connect(self):
    try:
        (app, script_name) = self.get_app(self.host, self.port)
        if app:
            self.sock = wsgi_fake_socket(app, self.host, self.port,
                                         script_name)
        else:
            HTTPConnection.connect(self)
    except Exception as e:
        ...
        raise
```
-/

/-- `get_app(host, port)`: looks up `(host, int(port))`; when found, calls
the factory and returns its result with the stored `script_name`; when not
found, returns `(None, None)`.  The outer `none` models the `ValueError`
from `int(port)` on a non-numeric string port, which `connect` re-raises. -/
def get_app {α : Type} (r : Registry α) (host : String) (port : PortVal) :
    Option (Option α × Option String) :=
  match pyInt port with
  | none => none
  | some n =>
    match dictGet r (host, .int n) with
    | some (app_fn, script_name) => some (app_fn (), some script_name)
    | none => some (none, none)

/-- The fake socket installed as `self.sock`: `wsgi_fake_socket(app, host,
port, script_name)`. -/
structure FakeSock (α : Type) where
  app : α
  host : String
  port : PortVal
  script_name : Option String
deriving Repr

/-- The observable outcome of `connect()`: the fake socket installed (if
any) and the number of times the real `HTTPConnection.connect` was
invoked. -/
structure ConnectOutcome (α : Type) where
  sock : Option (FakeSock α)
  realConnectCalls : Nat
deriving Repr

/-- `connect()` (lines 449–474): consults `get_app`; a truthy app installs
the fake socket and performs no real connection, a falsy app (not
registered, or a factory returning a falsy object) delegates to the real
`HTTPConnection.connect` exactly once.  The outer `none` models an
exception propagating out of `get_app`. -/
def connect {α : Type} (r : Registry α) (host : String) (port : PortVal) :
    Option (ConnectOutcome α) :=
  match get_app r host port with
  | none => none
  | some (app?, script_name) =>
    match app? with
    | some a => some ⟨some ⟨a, host, port, script_name⟩, 0⟩
    | none => some ⟨none, 1⟩

/-! ## The URL-processing step of `make_environ` (lines 227–237)

```
# clean the script_name off of the url, if it's there.
if not url.startswith(script_name):
    script_name = ''                # @CTB what to do -- bad URL.  scrap?
else:
    url = url[len(script_name):]

url = url.split('?', 1)
path_info = url[0]
query_string = ""
if len(url) == 2:
    query_string = url[1]
```
-/

/-- Python `url.startswith(script_name)`. -/
def startsWithChars (url sn : Bytes) : Bool :=
  match url, sn with
  | _, [] => true
  | [], _ :: _ => false
  | c :: cs, p :: ps => c = p && startsWithChars cs ps

/-- Python `url.split('?', 1)`: the part before the first `'?'`, and
`some` rest when a `'?'` occurs. -/
def splitFirstQ : Bytes → Bytes × Option Bytes
  | [] => ([], none)
  | c :: cs =>
    if c = '?' then ([], some cs)
    else
      let r := splitFirstQ cs
      (c :: r.1, r.2)

/-- The URL-processing step of `make_environ` (lines 227–237): returns the
`(script_name, path_info, query_string)` triple it leaves behind.  When the
URL does not start with `script_name`, `script_name` becomes `''` and the
URL is split unstripped; `query_string` stays `""` when the split produced
a single part. -/
def makeEnvironUrl (script_name url : Bytes) : Bytes × Bytes × Bytes :=
  let (sn, u) :=
    if startsWithChars url script_name then (script_name, url.drop script_name.length)
    else ([], url)
  let (p, q) := splitFirstQ u
  (sn, p, q.getD [])

/-! ## `wsgi_fake_socket.sendall` (lines 410–420)

```
def sendall(self, text):
    try:
        self.inp.write(text)
    except TypeError:
        self.inp.write(six.binary_type(text.decode('utf-8')))
```

Under Python 3 (`six.moves.http_client` is `http.client`): `self.inp` is a
`BytesIO`, so `write(text)` succeeds exactly on byte strings; on a `str`
it raises `TypeError`, and the handler then evaluates
`text.decode('utf-8')` — but `str` has no `decode` method in Python 3, so
an `AttributeError` is raised and escapes (only `TypeError` is caught). -/

/-- The argument of `sendall`: a byte string or a `str`. -/
inductive PyData where
  | bytes (s : Bytes)
  | str (s : Bytes)
deriving DecidableEq, Repr

/-- Outcome of `sendall` under Python 3: `ok` with the new contents of
`self.inp`, or an escaping `AttributeError`. -/
inductive SendallResult where
  | ok (inp : Bytes)
  | attributeError
deriving DecidableEq, Repr

/-- `sendall(text)` (lines 410–420) under Python 3 semantics: byte strings
are appended to `self.inp`; a `str` makes `BytesIO.write` raise
`TypeError`, after which `text.decode('utf-8')` raises `AttributeError`
(`str` has no `decode`), which escapes uncaught. -/
def sendall (inp : Bytes) : PyData → SendallResult
  | .bytes b => .ok (inp ++ b)
  | .str _ => .attributeError

/-! ## Helper lemmas -/

/-- Closed form of the `while` loop over a run of byte chunks: each chunk
goes to `self.output` in order, each pull's `write_fn` data (and finally
`stopWrites`) goes only to `self.write_results`, and `close` is reached. -/
theorem drainLoop_bytesPulls (out : Bytes) (wr : List Bytes)
    (ps : List (List Bytes × Bytes)) (sw : List Bytes) (hc : Bool) :
    drainLoop out wr (bytesPulls ps) sw hc
      = .ok ⟨out ++ (ps.map Prod.snd).flatten,
             wr ++ (ps.map Prod.fst).flatten ++ sw, hc⟩ := by
  induction ps generalizing out wr with
  | nil => simp [bytesPulls, drainLoop]
  | cons p ps ih =>
    obtain ⟨w, c⟩ := p
    have ih' := ih (out ++ c) (wr ++ w)
    simp only [bytesPulls] at ih' ⊢
    simp [drainLoop, ih', List.append_assoc]

/-- The `while` loop only ever appends to `self.output`. -/
theorem drainLoop_output_extends (out : Bytes) (wr : List Bytes) (ps : List Pull)
    (sw : List Bytes) (hc : Bool) :
    ∃ t, drainOutput (drainLoop out wr ps sw hc) = out ++ t := by
  induction ps generalizing out wr with
  | nil => exact ⟨[], by simp [drainLoop, drainOutput]⟩
  | cons q qs ih =>
    match h : q.item with
    | .bytes s =>
      obtain ⟨t, ht⟩ := ih (out ++ s) (wr ++ q.writes)
      exact ⟨s ++ t, by simp [drainLoop, h, ht, List.append_assoc]⟩
    | .notBytes => exact ⟨[], by simp [drainLoop, h, drainOutput]⟩

/-- The drive loop only ever appends to the output `start_response` left
behind: whatever was in `self.output` when the first pull starts is a
prefix of the final output, on every path. -/
theorem makefileDrain_output_extends (hdr : Bytes) (iw : List Bytes)
    (pulls : List Pull) (sw : List Bytes) (hc : Bool) :
    ∃ t, drainOutput (makefileDrain hdr iw pulls sw hc) = hdr ++ t := by
  match pulls with
  | [] => exact ⟨(iw ++ sw).flatten, by simp [makefileDrain, drainOutput]⟩
  | p :: rest =>
    match h : p.item with
    | .bytes s =>
      by_cases hs : s = []
      · exact ⟨(iw ++ p.writes).flatten, by simp [makefileDrain, h, hs, drainOutput]⟩
      · obtain ⟨t, ht⟩ :=
          drainLoop_output_extends (hdr ++ (iw ++ p.writes).flatten ++ s)
            (iw ++ p.writes) rest sw hc
        simp only [List.flatten_append, List.append_assoc] at ht
        refine ⟨(iw ++ p.writes).flatten ++ s ++ t, ?_⟩
        simp [makefileDrain, h, hs, ht, List.append_assoc]
    | .notBytes =>
      exact ⟨(iw ++ p.writes).flatten, by simp [makefileDrain, h, drainOutput]⟩

/-- `close` is reached by the `while` loop exactly on non-`TypeError`
exits. -/
theorem drainLoop_closed (out : Bytes) (wr : List Bytes) (ps : List Pull)
    (sw : List Bytes) (hc : Bool) :
    drainClosed (drainLoop out wr ps sw hc)
      = (hc && drainIsOk (drainLoop out wr ps sw hc)) := by
  induction ps generalizing out wr with
  | nil => simp [drainLoop, drainClosed, drainIsOk]
  | cons q qs ih =>
    match h : q.item with
    | .bytes s => simp [drainLoop, h, ih]
    | .notBytes => simp [drainLoop, h, drainClosed, drainIsOk]

/-- Looking up the key just assigned finds the assigned value. -/
theorem dictGet_dictSet_self {α : Type} (r : Registry α) (k : String × PortVal)
    (v : Entry α) : dictGet (dictSet r k v) k = some v := by
  induction r with
  | nil => simp [dictSet, dictGet]
  | cons kv rest ih =>
    obtain ⟨k', v'⟩ := kv
    by_cases h : k' = k <;> simp [dictSet, dictGet, h, ih]

/-- Looking up a deleted key fails. -/
theorem dictGet_dictDel_self {α : Type} (r : Registry α) (k : String × PortVal) :
    dictGet (dictDel r k) k = none := by
  induction r with
  | nil => simp [dictDel, dictGet]
  | cons kv rest ih =>
    obtain ⟨k', v'⟩ := kv
    by_cases h : k' = k <;> simp [dictDel, dictGet, h, ih]

/-! ## Claim theorems -/

/-- C1: when `makefile` finalizes a response, it pulls exactly one item
from the iterator first; then flushes every chunk collected so far via the
`start_response` write-function into the output (even when that first pull
raised `StopIteration`, whose pull appended `sw` to the buffer first); then,
only if the first item is non-empty, writes the first item followed by
every remaining item pulled in order until exhaustion.  In particular, for
a handler whose first chunk's production also calls the write-function
(`w1`), both the write-function data and the first chunk appear in the
final byte stream, with the write-function data first. -/
theorem C1_makefile_drive (hdr : Bytes) (iw w1 : List Bytes) (c1 : Bytes)
    (rest : List (List Bytes × Bytes)) (sw : List Bytes) (hc : Bool) :
    (makefileDrain hdr iw [] sw hc
        = .ok ⟨hdr ++ (iw ++ sw).flatten, iw ++ sw, hc⟩)
    ∧ (makefileDrain hdr iw (⟨w1, .bytes []⟩ :: bytesPulls rest) sw hc
        = .ok ⟨hdr ++ (iw ++ w1).flatten, iw ++ w1, hc⟩)
    ∧ (c1 ≠ [] →
       makefileDrain hdr iw (⟨w1, .bytes c1⟩ :: bytesPulls rest) sw hc
        = .ok ⟨hdr ++ (iw ++ w1).flatten ++ c1 ++ (rest.map Prod.snd).flatten,
               (iw ++ w1) ++ (rest.map Prod.fst).flatten ++ sw, hc⟩) := by
  refine ⟨rfl, by simp [makefileDrain], fun hne => ?_⟩
  simp [makefileDrain, hne, drainLoop_bytesPulls, List.append_assoc]

/-- C1 witness: a two-chunk handler with a write-function call during the
first pull; the flushed write-function data precedes the first chunk. -/
theorem C1_makefile_drive_witness :
    (chars "c" ≠ []) ∧
    makefileDrain (chars "H") [] (⟨[chars "w"], .bytes (chars "c")⟩
        :: bytesPulls [([chars "x"], chars "d")]) [chars "s"] true
      = .ok ⟨chars "H" ++ ([] ++ [chars "w"]).flatten ++ chars "c"
               ++ ([([chars "x"], chars "d")].map Prod.snd).flatten,
             ([] ++ [chars "w"]) ++ ([([chars "x"], chars "d")].map Prod.fst).flatten
               ++ [chars "s"], true⟩ :=
  ⟨by decide,
   (C1_makefile_drive (chars "H") [] [chars "w"] (chars "c")
      [([chars "x"], chars "d")] [chars "s"] true).2.2 (by decide)⟩

/-- C2: a handler invocation that calls `start_response` with status `s`
and header sequence `hs` and produces body bytes `b` (direct writes `ws`,
then chunks `c1 :: cs`) yields exactly
`"HTTP/1.0 " ++ s ++ "\n"`, then `k ++ ":" ++ v ++ "\n"` for each header in
order (no space after the colon), then a blank line, then the raw body
bytes; and the status line and headers are written into the output
immediately when the callback is invoked, so they are a prefix of the
output on every path of the drive loop, not deferred. -/
theorem C2_wire_format (status : Bytes) (headers : List (Bytes × Bytes))
    (ws : List Bytes) (c1 : Bytes) (cs : List Bytes) (hc : Bool) :
    (c1 ≠ [] →
      makefileRun status headers ws
          (⟨[], .bytes c1⟩ :: bytesPulls (cs.map fun c => ([], c))) [] hc
        = .ok ⟨((chars "HTTP/1.0 " ++ status ++ chars "\n")
                  ++ (headers.map fun kv => kv.1 ++ chars ":" ++ kv.2 ++ chars "\n").flatten
                  ++ chars "\n")
                 ++ (ws.flatten ++ c1 ++ cs.flatten), ws, hc⟩)
    ∧ (∀ (iw : List Bytes) (pulls : List Pull) (sw : List Bytes) (hc2 : Bool),
        ∃ body, drainOutput (makefileRun status headers iw pulls sw hc2)
          = startResponseOutput status headers ++ body) := by
  constructor
  · intro hne
    simp [makefileRun, makefileDrain, hne, drainLoop_bytesPulls,
      startResponseOutput, List.append_assoc, List.map_map, Function.comp]
  · intro iw pulls sw hc2
    exact makefileDrain_output_extends (startResponseOutput status headers) iw pulls sw hc2

/-- C2 witness: the scenario of the spec — status `"200 OK"`, header
`Content-Type:text/plain`, direct write `"world"` before the first chunk
`"hello "`. -/
theorem C2_wire_format_witness :
    (chars "hello " ≠ []) ∧
    makefileRun (chars "200 OK") [(chars "Content-Type", chars "text/plain")]
        [chars "world"] (⟨[], .bytes (chars "hello ")⟩ :: bytesPulls []) [] true
      = .ok ⟨((chars "HTTP/1.0 " ++ chars "200 OK" ++ chars "\n")
                ++ ([(chars "Content-Type", chars "text/plain")].map
                      fun kv => kv.1 ++ chars ":" ++ kv.2 ++ chars "\n").flatten
                ++ chars "\n")
               ++ ([chars "world"].flatten ++ chars "hello " ++ List.flatten []),
             [chars "world"], true⟩ :=
  ⟨by decide,
   by
    have h := (C2_wire_format (chars "200 OK")
      [(chars "Content-Type", chars "text/plain")] [chars "world"]
      (chars "hello ") [] true).1 (by decide)
    simpa using h⟩

/-- C3 counterexample: the claim asserts that the close operation is
invoked on all exit paths of the chunk-draining loop, including the fatal
path where a produced chunk was not byte-compatible.  Here the handler's
output object exposes `close` (`hasClose = true`) and its first chunk is a
truthy non-byte object, yet the resulting state records `closed = false`:
the descriptive `TypeError` raised at line 392 propagates past the
`close` call at lines 401–402, which is not in a `finally` block. -/
theorem C3_close_counterexample :
    makefileDrain [] [] [⟨[], .notBytes⟩] [] true
      = .typeError true ⟨[], [], false⟩ := by decide

/-- C3 amended: `close` is invoked exactly on the exit paths that raise no
`TypeError` — normal exhaustion, exhaustion on the first pull, and the
falsy-first-chunk path — provided the output object exposes `close`; on
the fatal non-byte-chunk path the `TypeError` escapes before the `close`
call is reached, so `close` is not invoked there. -/
theorem C3_close_amended (hdr : Bytes) (iw : List Bytes) (pulls : List Pull)
    (sw : List Bytes) (hc : Bool) :
    drainClosed (makefileDrain hdr iw pulls sw hc)
      = (hc && drainIsOk (makefileDrain hdr iw pulls sw hc)) := by
  match pulls with
  | [] => simp [makefileDrain, drainClosed, drainIsOk]
  | p :: rest =>
    match h : p.item with
    | .bytes s =>
      by_cases hs : s = []
      · simp [makefileDrain, h, hs, drainClosed, drainIsOk]
      · simp [makefileDrain, h, hs, drainLoop_closed]
    | .notBytes => simp [makefileDrain, h, drainClosed, drainIsOk]

/-- C8: the buffered direct-write data is flushed into the output exactly
once, right after the first pull: the final output does not depend on the
`write_fn` data produced during later pulls (or during the exhausting
pull), while that data is still appended to the internal
`self.write_results` buffer. -/
theorem C8_late_writes_never_flushed (hdr : Bytes) (iw w1 : List Bytes)
    (c1 : Bytes) (rest rest2 : List (List Bytes × Bytes)) (sw sw2 : List Bytes)
    (hc : Bool) (hchunks : rest.map Prod.snd = rest2.map Prod.snd) :
    (drainOutput (makefileDrain hdr iw (⟨w1, .bytes c1⟩ :: bytesPulls rest) sw hc)
      = drainOutput (makefileDrain hdr iw (⟨w1, .bytes c1⟩ :: bytesPulls rest2) sw2 hc))
    ∧ (c1 ≠ [] →
       drainWrites (makefileDrain hdr iw (⟨w1, .bytes c1⟩ :: bytesPulls rest) sw hc)
         = (iw ++ w1) ++ (rest.map Prod.fst).flatten ++ sw) := by
  constructor
  · by_cases hs : c1 = []
    · simp [makefileDrain, hs]
    · simp [makefileDrain, hs, drainLoop_bytesPulls, drainOutput, hchunks]
  · intro hs
    simp [makefileDrain, hs, drainLoop_bytesPulls, drainWrites]

/-- C8 witness: two runs differing only in the later-pull write-function
data and the exhaustion-pull writes produce the same output, and the later
write-function data lands in the buffer. -/
theorem C8_late_writes_never_flushed_witness :
    ([([chars "x"], chars "d")].map Prod.snd = [([chars "y"], chars "d")].map Prod.snd)
    ∧ (drainOutput (makefileDrain (chars "H") [] (⟨[chars "w"], .bytes (chars "c")⟩
          :: bytesPulls [([chars "x"], chars "d")]) [chars "s"] true)
        = drainOutput (makefileDrain (chars "H") [] (⟨[chars "w"], .bytes (chars "c")⟩
          :: bytesPulls [([chars "y"], chars "d")]) [] true))
    ∧ (chars "c" ≠ [] →
       drainWrites (makefileDrain (chars "H") [] (⟨[chars "w"], .bytes (chars "c")⟩
          :: bytesPulls [([chars "x"], chars "d")]) [chars "s"] true)
         = ([] ++ [chars "w"]) ++ ([([chars "x"], chars "d")].map Prod.fst).flatten
             ++ [chars "s"]) :=
  ⟨by decide,
   (C8_late_writes_never_flushed (chars "H") [] [chars "w"] (chars "c")
      [([chars "x"], chars "d")] [([chars "y"], chars "d")] [chars "s"] []
      true (by decide)).1,
   (C8_late_writes_never_flushed (chars "H") [] [chars "w"] (chars "c")
      [([chars "x"], chars "d")] [([chars "y"], chars "d")] [chars "s"] []
      true (by decide)).2⟩

/-- C4: for a `(host, port)` with no entry under the looked-up key,
`connect()` installs no fake transport and delegates to the real
`HTTPConnection.connect` exactly once; for a registered `(host, port)`
whose factory produces a handler instance `a`, `connect()` installs a fake
socket bound to `(a, host, port, script_name)` and performs no real
connection. -/
theorem C4_connect_dispatch (α : Type) (r : Registry α) (host : String) (n : Int) :
    (dictGet r (host, .int n) = none →
      connect r host (.int n) = some ⟨none, 1⟩)
    ∧ (∀ (f : Unit → Option α) (sn : String) (a : α),
        dictGet r (host, .int n) = some (f, sn) → f () = some a →
        connect r host (.int n) = some ⟨some ⟨a, host, .int n, some sn⟩, 0⟩) := by
  constructor
  · intro h
    simp [connect, get_app, pyInt, h]
  · intro f sn a h hf
    simp [connect, get_app, pyInt, h, hf]

/-- C4 witness: a registry holding only `("h", 80)`: connecting to port 81
falls through to one real connection, connecting to port 80 installs the
fake socket bound to the freshly created app. -/
theorem C4_connect_dispatch_witness :
    connect [(("h", PortVal.int 80), (fun _ => some 7, "/app"))] "h" (.int 81)
        = some ⟨none, 1⟩
    ∧ connect [(("h", PortVal.int 80), (fun _ => some 7, "/app"))] "h" (.int 80)
        = some ⟨some ⟨7, "h", .int 80, some "/app"⟩, 0⟩ :=
  ⟨(C4_connect_dispatch Nat [(("h", PortVal.int 80), (fun _ => some 7, "/app"))]
      "h" 81).1 rfl,
   (C4_connect_dispatch Nat [(("h", PortVal.int 80), (fun _ => some 7, "/app"))]
      "h" 80).2 (fun _ => some 7) "/app" 7 rfl rfl⟩

/-- C6: `remove_wsgi_intercept` on a never-registered key leaves the
registry dictionary unchanged; `add_wsgi_intercept` followed immediately by
`remove_wsgi_intercept` on the same key leaves lookups for that key
failing; and `remove_wsgi_intercept` with no arguments clears every
entry. -/
theorem C6_registry_idempotence (α : Type) (r : Registry α) (host : String)
    (port : PortVal) (f : Unit → Option α) (sn : String) :
    (dictGet r (host, port) = none →
      remove_wsgi_intercept r (.key host port) = r)
    ∧ dictGet (remove_wsgi_intercept
        (add_wsgi_intercept r host port f sn) (.key host port)) (host, port) = none
    ∧ (remove_wsgi_intercept r .noArgs = []
       ∧ ∀ k, dictGet ([] : Registry α) k = none) := by
  refine ⟨fun h => by simp [remove_wsgi_intercept, h], ?_, rfl, fun _ => rfl⟩
  simp [remove_wsgi_intercept, add_wsgi_intercept, dictGet_dictSet_self,
    dictGet_dictDel_self]

/-- C6 witness: on the singleton registry for `("h", 80)`, removing the
never-registered `("h", 81)` is the identity, and add-then-remove of
`("g", 8080)` leaves its lookup failing. -/
theorem C6_registry_idempotence_witness :
    remove_wsgi_intercept [(("h", PortVal.int 80), (fun _ => some 7, ""))]
        (.key "h" (.int 81))
      = [(("h", PortVal.int 80), (fun _ => some (7 : Nat), ""))]
    ∧ dictGet (remove_wsgi_intercept
        (add_wsgi_intercept [(("h", PortVal.int 80), (fun _ => some 7, ""))]
          "g" (.int 8080) (fun _ => some 9) "/m") (.key "g" (.int 8080)))
        ("g", .int 8080) = none
    ∧ (remove_wsgi_intercept [(("h", PortVal.int 80), (fun _ => some (7 : Nat), ""))]
          .noArgs = []
       ∧ ∀ k, dictGet ([] : Registry Nat) k = none) :=
  ⟨(C6_registry_idempotence Nat [(("h", PortVal.int 80), (fun _ => some 7, ""))]
      "h" (.int 81) (fun _ => some 7) "").1 rfl,
   (C6_registry_idempotence Nat [(("h", PortVal.int 80), (fun _ => some 7, ""))]
      "g" (.int 8080) (fun _ => some 9) "/m").2.1,
   (C6_registry_idempotence Nat [(("h", PortVal.int 80), (fun _ => some 7, ""))]
      "g" (.int 8080) (fun _ => some 9) "/m").2.2⟩

/-- C9: `add_wsgi_intercept` stores the port exactly as supplied while
`get_app` coerces its port to an integer before the lookup: an intercept
registered under a numeric-looking string port `p` is never found by
`get_app` (which looks up `(host, int(p))`), so `connect` falls through to
a real connection; whereas an intercept registered under the integer
`int(p)` is found by `get_app` even when called with the string `p`. -/
theorem C9_port_coercion (α : Type) (host p : String) (n : Int)
    (f : Unit → Option α) (sn : String) (hp : pyInt (.str p) = some n) :
    (get_app (add_wsgi_intercept ([] : Registry α) host (.str p) f sn)
        host (.str p) = some (none, none)
     ∧ connect (add_wsgi_intercept ([] : Registry α) host (.str p) f sn)
        host (.str p) = some ⟨none, 1⟩)
    ∧ get_app (add_wsgi_intercept ([] : Registry α) host (.int n) f sn)
        host (.str p) = some (f (), some sn) := by
  refine ⟨⟨?_, ?_⟩, ?_⟩ <;>
    simp [get_app, connect, add_wsgi_intercept, dictSet, dictGet, hp]

/-- C9 witness: registering `("h", "80")` (string port) is invisible to
`get_app("h", "80")` and `connect` makes one real connection; registering
`("h", 80)` (integer port) is found by `get_app("h", "80")`. -/
theorem C9_port_coercion_witness :
    (pyInt (.str "80") = some 80)
    ∧ (get_app (add_wsgi_intercept ([] : Registry Nat) "h" (.str "80")
          (fun _ => some 5) "") "h" (.str "80") = some (none, none)
       ∧ connect (add_wsgi_intercept ([] : Registry Nat) "h" (.str "80")
          (fun _ => some 5) "") "h" (.str "80") = some ⟨none, 1⟩)
    ∧ get_app (add_wsgi_intercept ([] : Registry Nat) "h" (.int 80)
          (fun _ => some 5) "") "h" (.str "80")
        = some ((fun _ => some (5 : Nat)) (), some "") :=
  ⟨by decide,
   (C9_port_coercion Nat "h" "80" 80 (fun _ => some 5) "" (by decide)).1,
   (C9_port_coercion Nat "h" "80" 80 (fun _ => some 5) "" (by decide)).2⟩

/-- C10: when a registered factory returns a falsy application object,
`connect()` treats the address as if it were not registered: no fake
transport is installed and the real `HTTPConnection.connect` is invoked
once, even though an entry for `(host, port)` exists in the registry. -/
theorem C10_falsy_app_falls_through (α : Type) (r : Registry α) (host : String)
    (n : Int) (f : Unit → Option α) (sn : String)
    (hreg : dictGet r (host, .int n) = some (f, sn)) (hf : f () = none) :
    connect r host (.int n) = some ⟨none, 1⟩ := by
  simp [connect, get_app, pyInt, hreg, hf]

/-- C10 witness: a registered entry whose factory returns `None` makes
`connect` fall through to one real connection. -/
theorem C10_falsy_app_falls_through_witness :
    connect [(("h", PortVal.int 80), (fun _ => (none : Option Nat), "/m"))]
        "h" (.int 80) = some ⟨none, 1⟩ :=
  C10_falsy_app_falls_through Nat
    [(("h", PortVal.int 80), (fun _ => none, "/m"))] "h" 80
    (fun _ => none) "/m" rfl rfl

/-- C5: during request decoding, a URL starting with the configured mount
path has that prefix stripped before the remainder is split at the first
`'?'` into path and query string; a URL that does not start with the mount
path gets the mount path treated as empty for this request — the function
is total, no error path exists.  `splitFirstQ` splits exactly at the first
`'?'` (everything before it is the path part, everything after it the
query), and a `'?'`-free remainder yields an empty query string.  In
particular, with mount path `"/app"` and URL `"/app/foo?x=1"`, the decoded
path is `"/foo"` and the query string is `"x=1"`. -/
theorem C5_mount_path_stripping (sn url : Bytes) :
    (startsWithChars url sn = true →
      makeEnvironUrl sn url
        = (sn, (splitFirstQ (url.drop sn.length)).1,
               ((splitFirstQ (url.drop sn.length)).2).getD []))
    ∧ (startsWithChars url sn = false →
      makeEnvironUrl sn url
        = ([], (splitFirstQ url).1, ((splitFirstQ url).2).getD []))
    ∧ (∀ rest : Bytes, startsWithChars (sn ++ rest) sn = true
        ∧ (sn ++ rest).drop sn.length = rest)
    ∧ (∀ p q : Bytes, '?' ∉ p → splitFirstQ (p ++ '?' :: q) = (p, some q))
    ∧ (∀ p : Bytes, '?' ∉ p → splitFirstQ p = (p, none))
    ∧ makeEnvironUrl (chars "/app") (chars "/app/foo?x=1")
        = (chars "/app", chars "/foo", chars "x=1") := by
  refine ⟨fun h => by simp [makeEnvironUrl, h],
          fun h => by simp [makeEnvironUrl, h],
          fun rest => ⟨?_, List.drop_left sn rest⟩, ?_, ?_, by decide⟩
  · induction sn with
    | nil => cases rest <;> rfl
    | cons c cs ih => simp [startsWithChars, ih]
  · intro p q hp
    induction p with
    | nil => simp [splitFirstQ]
    | cons c cs ih =>
      have hc : c ≠ '?' := fun hcq => hp (hcq ▸ List.mem_cons_self c cs)
      have ih' := ih (fun hm => hp (List.mem_cons_of_mem c hm))
      simp [splitFirstQ, hc, ih']
  · intro p hp
    induction p with
    | nil => rfl
    | cons c cs ih =>
      have hc : c ≠ '?' := fun hcq => hp (hcq ▸ List.mem_cons_self c cs)
      have ih' := ih (fun hm => hp (List.mem_cons_of_mem c hm))
      simp [splitFirstQ, hc, ih']

/-- C5 witness: the concrete mount-path example, obtained from the general
theorem with its hypotheses discharged on `"/app"` and `"/app/foo?x=1"`. -/
theorem C5_mount_path_stripping_witness :
    (startsWithChars (chars "/app/foo?x=1") (chars "/app") = true)
    ∧ makeEnvironUrl (chars "/app") (chars "/app/foo?x=1")
        = (chars "/app", (splitFirstQ ((chars "/app/foo?x=1").drop (chars "/app").length)).1,
           ((splitFirstQ ((chars "/app/foo?x=1").drop (chars "/app").length)).2).getD []) :=
  ⟨by decide,
   (C5_mount_path_stripping (chars "/app") (chars "/app/foo?x=1")).1 (by decide)⟩

/-- C7: the claim states that `sendall` tolerates both byte strings and
`str` inputs, normalizing the latter to bytes without raising.  Under
Python 3 the `str` path is broken: `BytesIO.write(text)` raises
`TypeError`, and the recovery code calls `text.decode('utf-8')` on a `str`
— which has no `decode` method in Python 3 — so an uncaught
`AttributeError` escapes.  (`text.encode('utf-8')` was clearly intended.)
Byte strings are appended as the claim states; every `str` input
raises. -/
theorem C7_sendall_str_raises :
    (∀ (inp b : Bytes), sendall inp (.bytes b) = .ok (inp ++ b))
    ∧ (∀ (inp s : Bytes), sendall inp (.str s) = .attributeError)
    ∧ sendall [] (.str (chars "abc")) = .attributeError :=
  ⟨fun _ _ => rfl, fun _ _ => rfl, rfl⟩
